import Mathlib

/-!
Shallow embedding of the request/response mapping layer of the anytype-api
repository (Python).  Each definition mirrors one function of the source:

* `validate_response`   — `app/helpers/api.py`, `validate_response`
* `makeRequest2xxBody`  — `app/helpers/api.py`, `make_request` (2xx body handling)
* `get_endpoint`        — `app/helpers/api.py`, `get_endpoint` over
                          `app/helpers/constants.py`'s `ENDPOINTS`
* `TypeValidator`       — `app/helpers/validators.py`, `TypeValidator.validate_types`
* `anytypeValidateToken` / `apiClientValidateToken`
                        — `app/clients/anytype.py` / `app/clients/api_client.py`
* `get_objects_route` / `search_objects_route`
                        — `app/routers/objects.py`

Python values flowing through these functions are modelled by `PyJson`;
machine-level details (HTTP transport, logging, async scheduling) are
abstracted away, the decision logic is translated verbatim.
-/

/-- A decoded JSON / Python value as handled by the helpers.  Python `dict`s
are assoc lists with distinct keys (JSON objects), `str` is `str`, numbers
are modelled by `Int` (no claim involves floats). -/
inductive PyJson where
  | null
  | bool (b : Bool)
  | num (n : Int)
  | str (s : String)
  | arr (xs : List PyJson)
  | obj (fields : List (String × PyJson))
  deriving Repr

/-- Python truthiness (`bool(x)`): `None`, `False`, `0`, `""`, `[]`, `{}` are
falsy, everything else truthy. -/
def pyTruthy : PyJson → Bool
  | .null => false
  | .bool b => b
  | .num n => n != 0
  | .str s => s ≠ ""
  | .arr xs => !xs.isEmpty
  | .obj fs => !fs.isEmpty

/-- `dict.get(key)`: first binding of `key` in the assoc list. -/
def lookupField : List (String × PyJson) → String → Option PyJson
  | [], _ => none
  | (k, v) :: rest, key => if k = key then some v else lookupField rest key

/-- Python `repr` of a decoded JSON value (the rendering `str` falls back to
for containers and non-string scalars). -/
def pyRepr : PyJson → String
  | .null => "None"
  | .bool true => "True"
  | .bool false => "False"
  | .num n => toString n
  | .str s => "'" ++ s ++ "'"
  | .arr xs => "[" ++ String.intercalate ", " (xs.attach.map (fun x => pyRepr x.1)) ++ "]"
  | .obj fs =>
      "\x7b" ++
        String.intercalate ", "
          (fs.attach.map (fun f => "'" ++ f.1.1 ++ "': " ++ pyRepr f.1.2)) ++
      "\x7d"
decreasing_by
  · have := List.sizeOf_lt_of_mem x.2
    simp only [PyJson.arr.sizeOf_spec]
    omega
  · obtain ⟨⟨k, v⟩, hf⟩ := f
    have := List.sizeOf_lt_of_mem hf
    simp only [Prod.mk.sizeOf_spec] at this
    simp only [PyJson.obj.sizeOf_spec]
    omega

/-- Python `str(x)`: the string itself for `str`, `repr`-like otherwise. -/
def pyStr : PyJson → String
  | .str s => s
  | j => pyRepr j

/-- The distinct raise sites of `validate_response` (all raise `APIError` in
the source; the constructor records which site fired). -/
inductive VError where
  | emptyResponse                 -- APIError("Empty response from API")
  | invalidJsonString             -- APIError("Invalid JSON string response")
  | apiError (message : PyJson)   -- APIError(response["error"])
  deriving Repr

/-- `validate_response`, list-element coercion: non-dict elements of a bare
top-level list become `{"id": str(element)}`. -/
def coerceItem (r : PyJson) : PyJson :=
  match r with
  | .obj _ => r
  | other => .obj [("id", .str (pyStr other))]

/-- `validate_response`, dict branch after the error-key check: a `"data"`
key is unwrapped (non-list wrapped in a singleton), any other dict is
returned whole as a single-element list. -/
def unwrapEnvelope (fs : List (String × PyJson)) : PyJson :=
  match lookupField fs "data" with
  | some (.arr xs) => .arr xs
  | some d => .arr [d]
  | none => .arr [.obj fs]

/-- Shape dispatch of `validate_response` after the falsy check and the
string parse: dict with truthy `error` raises; dict otherwise unwraps via
`unwrapEnvelope`; list coerces element-wise; any other scalar becomes
`[{"value": str(response)}]`. -/
def normalizeShape (r : PyJson) : Except VError PyJson :=
  match r with
  | .obj fs =>
      match lookupField fs "error" with
      | some ev =>
          if pyTruthy ev then .error (.apiError ev)
          else .ok (unwrapEnvelope fs)
      | none => .ok (unwrapEnvelope fs)
  | .arr xs => .ok (.arr (xs.map coerceItem))
  | other => .ok (.arr [.obj [("value", .str (pyStr other))]])

/-- `app/helpers/api.py`, `validate_response`.  `parse` stands for
`json.loads` (success = `some`, `json.JSONDecodeError` = `none`); a falsy
input raises `EmptyResponse` before anything else. -/
def validate_response (parse : String → Option PyJson) (response : PyJson) :
    Except VError PyJson :=
  if pyTruthy response then
    match response with
    | .str s =>
        match parse s with
        | some v => normalizeShape v
        | none => .error .invalidJsonString
    | v => normalizeShape v
  else .error .emptyResponse

/-- A parse oracle that always fails; stands for `json.loads` on inputs the
claims never parse. -/
def parse0 : String → Option PyJson := fun _ => none

/-- `APIError(message, status_code)` from `app/helpers/api.py` (the default
`status_code` is 500). -/
structure APIErr where
  message : String
  status_code : Nat
  deriving Repr, DecidableEq

/-- `app/helpers/api.py`, `make_request`, 2xx body handling: `decoded` is
the outcome of `response.json()` (`none` = `json.JSONDecodeError`, which is
what an empty body produces).  A decoded mapping is returned as-is, any
other decoded value is wrapped as `{"data": value}`; an undecodable body
yields `{}` when the status is 204 and `APIError("Invalid JSON response
from API", 500)` otherwise. -/
def makeRequest2xxBody (status : Nat) (decoded : Option PyJson) :
    Except APIErr PyJson :=
  match decoded with
  | some result =>
      match result with
      | .obj fs => .ok (.obj fs)
      | other => .ok (.obj [("data", other)])
  | none =>
      if status = 204 then .ok (.obj [])
      else .error (APIErr.mk "Invalid JSON response from API" 500)

/-- `str.format`'s placeholder scanner over the template's characters:
on `{`, the key up to the matching `}` is looked up in the parameters, a
missing key raising `KeyError(key)` (all registry templates are well
formed, so the unbalanced-brace case never arises). -/
def braceOpen : Char := Char.ofNat 123

/-- The closing template brace. -/
def braceClose : Char := Char.ofNat 125

/-- Parameter lookup for `str.format`'s keyword arguments. -/
def lookupParam : List (String × String) → String → Option String
  | [], _ => none
  | (k, v) :: rest, key => if k = key then some v else lookupParam rest key

/-- Character-level substitution for `template.format(**params)`; the error
value is the missing key.  `fuel` only bounds the recursion (structurally,
so that the definition computes); it never runs out when it starts at the
template's length, since the scan strictly consumes the character list. -/
def formatGo (ps : List (String × String)) : Nat → List Char → Except String (List Char)
  | _, [] => .ok []
  | 0, l => .ok l
  | fuel + 1, c :: rest =>
      if c = braceOpen then
        let key := String.mk (rest.takeWhile (fun d => d ≠ braceClose))
        let rest2 := (rest.dropWhile (fun d => d ≠ braceClose)).drop 1
        match lookupParam ps key with
        | some v =>
            match formatGo ps fuel rest2 with
            | .ok tail => .ok (v.data ++ tail)
            | .error e => .error e
        | none => .error key
      else
        match formatGo ps fuel rest with
        | .ok tail => .ok (c :: tail)
        | .error e => .error e

/-- `template.format(**params)`: substituted string or the missing key. -/
def formatTemplate (tmpl : String) (ps : List (String × String)) :
    Except String String :=
  match formatGo ps tmpl.data.length tmpl.data with
  | .ok cs => .ok (String.mk cs)
  | .error k => .error k

/-- `app/helpers/constants.py`, `ENDPOINTS`: logical operation name to URL
path template. -/
def ENDPOINTS : List (String × String) :=
  [ ("createObject", "/v1/spaces/{space_id}/objects"),
    ("deleteObject", "/v1/spaces/{space_id}/objects/{object_id}"),
    ("getObject", "/v1/spaces/{space_id}/objects/{object_id}"),
    ("getObjects", "/v1/spaces/{space_id}/objects"),
    ("searchObjects", "/v1/spaces/{space_id}/search"),
    ("globalSearch", "/v1/search"),
    ("getExport", "/v1/spaces/{space_id}/objects/{object_id}/export/{format}"),
    ("createSpace", "/v1/spaces"),
    ("getSpace", "/v1/spaces/{space_id}"),
    ("getSpaces", "/v1/spaces"),
    ("getMembers", "/v1/spaces/{space_id}/members"),
    ("getTypes", "/v1/spaces/{space_id}/types"),
    ("getType", "/v1/spaces/{space_id}/types/{type_id}"),
    ("getTemplates", "/v1/spaces/{space_id}/types/{type_id}/templates"),
    ("createChallenge", "/v1/auth/challenges"),
    ("createApiKey", "/v1/auth/api_keys"),
    ("getTags", "/v1/spaces/{space_id}/properties/{property_id}/tags"),
    ("getTag", "/v1/spaces/{space_id}/properties/{property_id}/tags/{tag_id}"),
    ("createTag", "/v1/spaces/{space_id}/properties/{property_id}/tags"),
    ("updateTag", "/v1/spaces/{space_id}/properties/{property_id}/tags/{tag_id}"),
    ("deleteTag", "/v1/spaces/{space_id}/properties/{property_id}/tags/{tag_id}") ]

/-- `app/helpers/api.py`, `get_endpoint`: unknown (or empty) registry entry
raises `APIError("Unknown endpoint: <name>")`; a `KeyError` from `format`
raises `APIError("Missing required parameter for endpoint <name>: '<key>'")`
(Python renders `str(KeyError(k))` with the quotes). -/
def get_endpoint (name : String) (params : List (String × String)) :
    Except APIErr String :=
  match lookupParam ENDPOINTS name with
  | none => .error (APIErr.mk ("Unknown endpoint: " ++ name) 500)
  | some tmpl =>
      if tmpl = "" then .error (APIErr.mk ("Unknown endpoint: " ++ name) 500)
      else
        match formatTemplate tmpl params with
        | .ok s => .ok s
        | .error k =>
            .error (APIErr.mk
              ("Missing required parameter for endpoint " ++ name ++ ": '" ++ k ++ "'")
              500)

/-- `app/clients/anytype.py`, `AnytypeClient.validate_token`: the outcome of
the single upstream empty-search call is interpreted — success means `true`,
`APIError` with status 401 means `false`, any other `APIError` is re-raised. -/
def anytypeValidateToken (outcome : Except APIErr PyJson) : Except APIErr Bool :=
  match outcome with
  | .ok _ => .ok true
  | .error e => if e.status_code = 401 then .ok false else .error e

/-- `app/clients/api_client.py`, `APIClient.validate_token`: the outcome of
the single `list_spaces(limit=1)` upstream call is interpreted — success
means `true` and every `APIError` (whatever its status) means `false`. -/
def apiClientValidateToken (outcome : Except APIErr PyJson) : Except APIErr Bool :=
  match outcome with
  | .ok _ => .ok true
  | .error _ => .ok false

/-- Lexicographic `≤` on character lists (comparison by code point), the
order Python compares strings by. -/
def charListLe : List Char → List Char → Bool
  | [], _ => true
  | _ :: _, [] => false
  | a :: as, b :: bs => if a < b then true else if b < a then false else charListLe as bs

/-- Python's `s1 <= s2` on strings. -/
def strLe (a b : String) : Bool := charListLe a.data b.data

/-- Insertion step of ascending string sort. -/
def insertStr (x : String) : List String → List String
  | [] => [x]
  | y :: ys => if strLe x y then x :: y :: ys else y :: insertStr x ys

/-- Python `sorted` on strings: ascending lexicographic order. -/
def sortStrings : List String → List String
  | [] => []
  | x :: xs => insertStr x (sortStrings xs)

/-- Python `pat in s` on strings: contiguous substring test. -/
def strContains (s pat : String) : Bool :=
  s.data.tails.any (fun t => pat.data.isPrefixOf t)

/-- `app/helpers/schemas.py`-style type record; the validator only reads
`id` (`{t.id for t in type_list}`). -/
structure TypeDetails where
  id : String
  name : String
  deriving Repr, DecidableEq

/-- Outcome of `client.get_types(space_id=..., include_system=True,
token=...)` as the validator observes it: a type list, or a raised
exception carrying `str(e)`. -/
inductive GetTypesResult where
  | ok (type_list : List TypeDetails)
  | err (msg : String)
  deriving Repr, DecidableEq

/-- `TypeValidator.__init__`: the per-space cache `self._space_types`
(assoc list keyed by space id or `"global"`). -/
structure TypeValidatorState where
  space_types : List (String × List String)
  deriving Repr, DecidableEq

/-- Cache lookup (`cache_key in self._space_types` / subscript). -/
def lookupCache : List (String × List String) → String → Option (List String)
  | [], _ => none
  | (k, v) :: rest, key => if k = key then some v else lookupCache rest key

/-- `space_id or "global"`: Python `or` takes the fallback when `space_id`
is `None` or the empty string. -/
def cacheKey (space_id : Option String) : String :=
  match space_id with
  | none => "global"
  | some s => if s = "" then "global" else s

/-- How `validate_types` returns to its caller: `None`, the input list
unchanged, an `HTTPException(status, detail)`, or a re-raised client
exception. -/
inductive VTOutcome where
  | noneResult
  | passed (ts : List String)
  | httpError (status : Nat) (detail : String)
  | raised (msg : String)
  deriving Repr, DecidableEq

/-- `app/helpers/validators.py` lines 64-73: `invalid = [t for t in types if
t not in valid_types]`; non-empty raises `HTTPException(400, ...)` listing
the invalid types and the sorted valid set, else the input is returned. -/
def checkInvalid (ts valid : List String) : VTOutcome :=
  let invalid := ts.filter (fun t => !valid.contains t)
  if invalid = [] then .passed ts
  else
    .httpError 400
      ("Invalid type(s): " ++ String.intercalate ", " invalid ++
       ". Valid types are: " ++ String.intercalate ", " (sortStrings valid))

/-- `app/helpers/validators.py`, `TypeValidator.validate_types`.  `client`
gives the (deterministic) upstream behaviour per space id; the returned
`Nat` counts upstream `get_types` calls made by this invocation.  Empty /
`None` input short-circuits; a cache miss fetches: an empty type list or a
"type not found" failure passes the input through (no cache write), any
other failure re-raises, a non-empty list is cached as its id set before
the invalid-type check runs. -/
def validate_types (st : TypeValidatorState) (types : Option (List String))
    (space_id : Option String) (client : Option String → GetTypesResult) :
    VTOutcome × TypeValidatorState × Nat :=
  match types with
  | none => (.noneResult, st, 0)
  | some ts =>
    if ts = [] then (.noneResult, st, 0)
    else
      let key := cacheKey space_id
      match lookupCache st.space_types key with
      | some valid => (checkInvalid ts valid, st, 0)
      | none =>
        match client space_id with
        | .ok type_list =>
            if type_list = [] then (.passed ts, st, 1)
            else
              let valid := (type_list.map TypeDetails.id).dedup
              let st' := TypeValidatorState.mk ((key, valid) :: st.space_types)
              (checkInvalid ts valid, st', 1)
        | .err msg =>
            if strContains msg.toLower "type not found" ||
               strContains msg "'message': 'type not found'" then
              (.passed ts, st, 1)
            else (.raised msg, st, 1)

/-- Modelled from the spec: the `SortOrder` enum the REST-router revision
imports from `app.helpers.schemas` is absent from `src/` (the checked-in
`schemas.py` is a different revision); its members follow `SORT_ORDERS` in
`app/helpers/constants.py`, the router's default being
`SortOrder.LAST_MODIFIED_DATE` with value `"last_modified_date"`. -/
inductive SortOrder where
  | CREATED_DATE
  | LAST_MODIFIED_DATE
  | LAST_OPENED_DATE
  | NAME
  | TYPE
  deriving Repr, DecidableEq

/-- `.value` of the enum member. -/
def SortOrder.value : SortOrder → String
  | .CREATED_DATE => "created_date"
  | .LAST_MODIFIED_DATE => "last_modified_date"
  | .LAST_OPENED_DATE => "last_opened_date"
  | .NAME => "name"
  | .TYPE => "type"

/-- Modelled from the spec: the `SortOptions(direction=..., timestamp=...)`
record constructed in `app/routers/objects.py` (its class is absent from
the checked-in `schemas.py` revision). -/
structure SortOptionsR where
  direction : String
  timestamp : String
  deriving Repr, DecidableEq

/-- Modelled from the spec: the `SearchRequest` record the REST-router
revision constructs (`space_id`, `query`, `types`, `limit`, `offset`,
`sort`); the class itself is absent from the checked-in `schemas.py`
revision. -/
structure SearchRequestR where
  space_id : String
  query : String
  types : Option (List String)
  limit : Option Int
  offset : Option Int
  sort : SortOptionsR
  deriving Repr, DecidableEq

/-- `HTTPException(status_code, detail)` as the routers raise it. -/
structure HTTPExc where
  status_code : Nat
  detail : String
  deriving Repr, DecidableEq

/-- `app/routers/objects.py`, `get_objects`, request construction:
`types.split(",") if types else None`, `SortOptions(direction="desc",
timestamp=sort.value if sort else "last_modified_date")`, and a
`SearchRequest` with the empty query and the caller's `space_id`,
`limit`, `offset` carried over. -/
def mkGetObjectsSearchRequest (space_id : String) (types : Option String)
    (limit offset : Option Int) (sort : Option SortOrder) : SearchRequestR :=
  let type_list : Option (List String) :=
    match types with
    | none => none
    | some s => if s = "" then none else some (s.splitOn ",")
  let sort_options :=
    SortOptionsR.mk "desc"
      (match sort with
       | some s => s.value
       | none => "last_modified_date")
  SearchRequestR.mk space_id "" type_list limit offset sort_options

/-- `app/routers/objects.py`, `search_objects` route: delegates the request
to `client.search_objects(request, token=token)` and maps an `APIError`
onto `HTTPException(e.status_code, str(e))`.  `search` is the client call
(request and token applied), abstracting the upstream behaviour. -/
def search_objects_route {ρ : Type} (search : SearchRequestR → String → Except APIErr ρ)
    (request : SearchRequestR) (token : String) : Except HTTPExc ρ :=
  match search request token with
  | .ok v => .ok v
  | .error e => .error (HTTPExc.mk e.status_code e.message)

/-- `app/routers/objects.py`, `get_objects` route: builds the empty-query
`SearchRequest` and performs the same delegation and error mapping as the
`search_objects` route. -/
def get_objects_route {ρ : Type} (search : SearchRequestR → String → Except APIErr ρ)
    (space_id : String) (types : Option String) (limit offset : Option Int)
    (sort : Option SortOrder) (token : String) : Except HTTPExc ρ :=
  match search (mkGetObjectsSearchRequest space_id types limit offset sort) token with
  | .ok v => .ok v
  | .error e => .error (HTTPExc.mk e.status_code e.message)

/-- `normalizeShape` never produces the `EmptyResponse` error (that raise
site runs before shape dispatch). -/
theorem normalizeShape_not_empty (v : PyJson) :
    normalizeShape v ≠ .error .emptyResponse := by
  cases v with
  | obj fs =>
      simp only [normalizeShape]
      cases hle : lookupField fs "error" with
      | none => simp
      | some ev =>
          by_cases hev : pyTruthy ev = true
          · simp [hev]
          · simp [hev]
  | arr xs => simp [normalizeShape]
  | null => simp [normalizeShape]
  | bool b => simp [normalizeShape]
  | num n => simp [normalizeShape]
  | str s => simp [normalizeShape]

/-- validate_response of a truthy non-string input is shape dispatch. -/
theorem validate_response_truthy (parse : String → Option PyJson) (j : PyJson)
    (ht : pyTruthy j = true) (hns : ∀ s, j ≠ .str s) :
    validate_response parse j = normalizeShape j := by
  unfold validate_response
  rw [ht]
  cases j with
  | str s => exact absurd rfl (hns s)
  | null => rfl
  | bool b => rfl
  | num n => rfl
  | arr xs => rfl
  | obj fs => rfl

/-- Claim C2 counterexample: `validate_response` on the empty list `[]` — the
claim says `[]` is accepted as a valid empty result, but `[]` is falsy in
Python and the source raises `APIError("Empty response from API")`. -/
theorem validate_response_empty_list_counterexample :
    validate_response parse0 (.arr []) = .error .emptyResponse ∧
    ∀ xs, validate_response parse0 (.arr []) ≠ .ok (.arr xs) := by
  refine ⟨rfl, ?_⟩
  intro xs h
  simp [validate_response, pyTruthy, parse0] at h

/-- Claim C2 (amended): `validate_response` raises `EmptyResponse` exactly on the
falsy inputs — `None`, `{}`, `""` AND the empty list `[]` (plus `0` and
`False`); no truthy input reaches that raise site. -/
theorem validate_response_empty_iff_falsy (parse : String → Option PyJson)
    (j : PyJson) :
    validate_response parse j = .error .emptyResponse ↔ pyTruthy j = false := by
  constructor
  · intro h
    by_contra hne
    have ht : pyTruthy j = true := by
      cases hpt : pyTruthy j
      · exact absurd hpt hne
      · rfl
    cases j with
    | str s =>
        unfold validate_response at h
        rw [ht] at h
        simp only [if_true] at h
        cases hp : parse s with
        | none => rw [hp] at h; simp at h
        | some v => rw [hp] at h; exact normalizeShape_not_empty v h
    | null => rw [validate_response_truthy parse _ ht (by intro s hs; cases hs)] at h
              exact normalizeShape_not_empty _ h
    | bool b => rw [validate_response_truthy parse _ ht (by intro s hs; cases hs)] at h
                exact normalizeShape_not_empty _ h
    | num n => rw [validate_response_truthy parse _ ht (by intro s hs; cases hs)] at h
               exact normalizeShape_not_empty _ h
    | arr xs => rw [validate_response_truthy parse _ ht (by intro s hs; cases hs)] at h
                exact normalizeShape_not_empty _ h
    | obj fs => rw [validate_response_truthy parse _ ht (by intro s hs; cases hs)] at h
                exact normalizeShape_not_empty _ h
  · intro h
    unfold validate_response
    rw [h]
    rfl

/-- Claim C1 counterexample: a mapping whose only key is the resource-named
`"spaces"` is NOT unwrapped — `validate_response` returns the whole mapping
as a single-element list, not the list stored under `"spaces"`. -/
theorem validate_response_resource_key_counterexample :
    validate_response parse0 (.obj [("spaces", .arr [.obj [("id", .str "1")]])])
      = .ok (.arr [.obj [("spaces", .arr [.obj [("id", .str "1")]])]]) ∧
    validate_response parse0 (.obj [("spaces", .arr [.obj [("id", .str "1")]])])
      ≠ .ok (.arr [.obj [("id", .str "1")]]) := by
  constructor
  · rfl
  · intro h
    rw [show validate_response parse0 (.obj [("spaces", .arr [.obj [("id", .str "1")]])])
          = .ok (.arr [.obj [("spaces", .arr [.obj [("id", .str "1")]])]]) from rfl] at h
    simp at h

/-- Claim C1 (amended): the only envelope key `validate_response` recognizes is
`"data"` — its value is unwrapped, wrapped in a singleton when not already
a list; a mapping without a `"data"` key (including one keyed by a resource
name such as `"spaces"`) is returned whole as a single-element list.  The
hypotheses keep the input truthy and off the `error` raise path. -/
theorem validate_response_data_envelope (parse : String → Option PyJson)
    (fs : List (String × PyJson)) (hne : fs ≠ [])
    (herr : ∀ ev, lookupField fs "error" = some ev → pyTruthy ev = false) :
    (∀ xs, lookupField fs "data" = some (.arr xs) →
        validate_response parse (.obj fs) = .ok (.arr xs)) ∧
    (∀ d, lookupField fs "data" = some d → (∀ xs, d ≠ .arr xs) →
        validate_response parse (.obj fs) = .ok (.arr [d])) ∧
    (lookupField fs "data" = none →
        validate_response parse (.obj fs) = .ok (.arr [.obj fs])) := by
  have ht : pyTruthy (.obj fs) = true := by
    cases fs with
    | nil => exact absurd rfl hne
    | cons a l => rfl
  have hv : validate_response parse (.obj fs) = normalizeShape (.obj fs) :=
    validate_response_truthy parse _ ht (by intro s hs; cases hs)
  have hsh : normalizeShape (.obj fs) = .ok (unwrapEnvelope fs) := by
    simp only [normalizeShape]
    cases hle : lookupField fs "error" with
    | none => rfl
    | some ev => simp [herr ev hle]
  refine ⟨?_, ?_, ?_⟩
  · intro xs hdata
    rw [hv, hsh]
    simp only [unwrapEnvelope]
    rw [hdata]
  · intro d hdata hnarr
    rw [hv, hsh]
    simp only [unwrapEnvelope]
    rw [hdata]
    cases d with
    | arr xs => exact absurd rfl (hnarr xs)
    | null => rfl
    | bool b => rfl
    | num n => rfl
    | str s => rfl
    | obj gs => rfl
  · intro hdata
    rw [hv, hsh]
    simp only [unwrapEnvelope]
    rw [hdata]

/-- Claim C1 witness: the theorem applied at the spec's own round-trip examples —
`{"data": [x1, x2]}` unwraps to `[x1, x2]` and `{"id": "1"}` (no envelope
key) becomes `[{"id": "1"}]`. -/
theorem validate_response_data_envelope_witness :
    validate_response parse0
        (.obj [("data", .arr [.obj [("id", .str "1")], .obj [("id", .str "2")]])])
      = .ok (.arr [.obj [("id", .str "1")], .obj [("id", .str "2")]]) ∧
    validate_response parse0 (.obj [("id", .str "1")])
      = .ok (.arr [.obj [("id", .str "1")]]) := by
  constructor
  · exact (validate_response_data_envelope parse0 _ (by simp)
      (by intro ev h; simp [lookupField] at h)).1 _ (by simp [lookupField])
  · exact (validate_response_data_envelope parse0 _ (by simp)
      (by intro ev h; simp [lookupField] at h)).2.2 (by simp [lookupField])

/-- The dict branch of `validate_response` always builds a list. -/
theorem unwrapEnvelope_is_arr (fs : List (String × PyJson)) :
    ∃ xs, unwrapEnvelope fs = .arr xs := by
  unfold unwrapEnvelope
  cases hd : lookupField fs "data" with
  | none => exact ⟨_, rfl⟩
  | some d => cases d <;> exact ⟨_, rfl⟩

/-- Every success of shape dispatch is a list. -/
theorem normalizeShape_ok_is_arr (v r : PyJson) (h : normalizeShape v = .ok r) :
    ∃ xs, r = .arr xs := by
  cases v with
  | obj fs =>
      simp only [normalizeShape] at h
      obtain ⟨xs, hxs⟩ := unwrapEnvelope_is_arr fs
      cases hle : lookupField fs "error" with
      | none =>
          rw [hle] at h
          simp only [Except.ok.injEq] at h
          exact ⟨xs, by rw [← h, hxs]⟩
      | some ev =>
          rw [hle] at h
          have h' : (if pyTruthy ev = true then Except.error (VError.apiError ev)
              else Except.ok (unwrapEnvelope fs)) = Except.ok r := h
          by_cases hev : pyTruthy ev = true
          · rw [if_pos hev] at h'; cases h'
          · rw [if_neg hev] at h'
            injection h' with h2
            exact ⟨xs, by rw [← h2]; exact hxs⟩
  | arr xs => simp only [normalizeShape, Except.ok.injEq] at h; exact ⟨_, h.symm⟩
  | null => simp only [normalizeShape, Except.ok.injEq] at h; exact ⟨_, h.symm⟩
  | bool b => simp only [normalizeShape, Except.ok.injEq] at h; exact ⟨_, h.symm⟩
  | num n => simp only [normalizeShape, Except.ok.injEq] at h; exact ⟨_, h.symm⟩
  | str s => simp only [normalizeShape, Except.ok.injEq] at h; exact ⟨_, h.symm⟩

/-- Claim C10: every non-raising run of `validate_response` returns a list (even
though the declared return type also admits a single mapping); elements of
a `"data"` envelope pass through as-is, and only the elements of a bare
top-level list are coerced — a non-mapping element becomes
`{"id": str(element)}` while mapping elements stay untouched. -/
theorem validate_response_returns_list (parse : String → Option PyJson) :
    (∀ j r, validate_response parse j = .ok r → ∃ xs, r = .arr xs) ∧
    (∀ fs xs, fs ≠ [] → lookupField fs "error" = none →
        lookupField fs "data" = some (.arr xs) →
        validate_response parse (.obj fs) = .ok (.arr xs)) ∧
    (∀ xs, xs ≠ [] →
        validate_response parse (.arr xs)
          = .ok (.arr (xs.map (fun r => match r with
              | .obj gs => .obj gs
              | other => .obj [("id", .str (pyStr other))])))) := by
  refine ⟨?_, ?_, ?_⟩
  · intro j r h
    unfold validate_response at h
    by_cases ht : pyTruthy j = true
    · rw [ht] at h
      simp only [if_true] at h
      cases j with
      | str s =>
          have h' : (match parse s with
              | some v => normalizeShape v
              | none => Except.error VError.invalidJsonString) = Except.ok r := h
          cases hp : parse s with
          | some v => rw [hp] at h'; exact normalizeShape_ok_is_arr v r h'
          | none => rw [hp] at h'; cases h'
      | null => exact normalizeShape_ok_is_arr _ r h
      | bool b => exact normalizeShape_ok_is_arr _ r h
      | num n => exact normalizeShape_ok_is_arr _ r h
      | arr xs => exact normalizeShape_ok_is_arr _ r h
      | obj fs => exact normalizeShape_ok_is_arr _ r h
    · have hf : pyTruthy j = false := by
        cases hpt : pyTruthy j
        · rfl
        · exact absurd hpt ht
      rw [hf] at h
      cases h
  · intro fs xs hne hle hdata
    exact (validate_response_data_envelope parse fs hne
      (by intro ev hsome; rw [hle] at hsome; cases hsome)).1 xs hdata
  · intro xs hne
    have hfun : (fun r => match r with
        | PyJson.obj gs => PyJson.obj gs
        | other => PyJson.obj [("id", .str (pyStr other))]) = coerceItem := by
      funext r
      cases r <;> rfl
    rw [hfun]
    have ht : pyTruthy (.arr xs) = true := by
      cases xs with
      | nil => exact absurd rfl hne
      | cons a l => rfl
    rw [validate_response_truthy parse _ ht (by intro s hs; cases hs)]
    rfl

/-- Claim C10 witness: the theorem applied at a success of each kind — an
always-list result, an as-is `data` envelope, and a bare list whose
non-mapping element is coerced to `{"id": str(element)}`. -/
theorem validate_response_returns_list_witness :
    (∃ xs, (PyJson.arr [PyJson.obj [("a", PyJson.str "b")]]) = PyJson.arr xs) ∧
    validate_response parse0 (.obj [("data", .arr [.obj []])]) = .ok (.arr [.obj []]) ∧
    validate_response parse0 (.arr [.str "x", .obj [("id", .str "1")]])
      = .ok (.arr [.obj [("id", .str "x")], .obj [("id", .str "1")]]) := by
  refine ⟨(validate_response_returns_list parse0).1 (.obj [("a", .str "b")]) _ rfl, ?_, ?_⟩
  · exact (validate_response_returns_list parse0).2.1 _ _ (by simp)
      (by simp [lookupField]) (by simp [lookupField])
  · exact (validate_response_returns_list parse0).2.2 _ (by simp)

/-- Claim C3 counterexample: a 200 response with an empty (hence undecodable)
body — the claim says it returns `{}`, but only status 204 gets the
empty-mapping treatment; at 200 the source raises `APIError("Invalid JSON
response from API", 500)`. -/
theorem make_request_200_empty_body_counterexample :
    makeRequest2xxBody 200 none = .error (APIErr.mk "Invalid JSON response from API" 500) ∧
    makeRequest2xxBody 200 none ≠ .ok (.obj []) := by
  constructor
  · rfl
  · intro h
    cases h

/-- Claim C3 (amended): on a 2xx response whose body does not decode as JSON
(an empty body included), `make_request` returns `{}` only when the status
is 204; for every other status it fails with `APIError("Invalid JSON
response from API", 500)`. -/
theorem make_request_2xx_undecodable_body (status : Nat) :
    (status = 204 → makeRequest2xxBody status none = .ok (.obj [])) ∧
    (status ≠ 204 →
        makeRequest2xxBody status none
          = .error (APIErr.mk "Invalid JSON response from API" 500)) := by
  constructor
  · intro h
    simp [makeRequest2xxBody, h]
  · intro h
    simp [makeRequest2xxBody, h]

/-- Claim C3 witness: the amended theorem applied at status 204 and status 200. -/
theorem make_request_2xx_undecodable_body_witness :
    makeRequest2xxBody 204 none = .ok (.obj []) ∧
    makeRequest2xxBody 200 none
      = .error (APIErr.mk "Invalid JSON response from API" 500) :=
  ⟨(make_request_2xx_undecodable_body 204).1 rfl,
   (make_request_2xx_undecodable_body 200).2 (by decide)⟩

/-- Claim C9: `make_request` always hands its callers a mapping — a decoded 2xx
mapping is returned as-is, and a decoded non-mapping value (list or scalar)
is wrapped as `{"data": value}` before being returned. -/
theorem make_request_returns_mapping (status : Nat) (decoded : Option PyJson) :
    (∀ r, makeRequest2xxBody status decoded = .ok r → ∃ gs, r = .obj gs) ∧
    (∀ fs, makeRequest2xxBody status (some (.obj fs)) = .ok (.obj fs)) ∧
    (∀ v, (∀ gs, v ≠ .obj gs) →
        makeRequest2xxBody status (some v) = .ok (.obj [("data", v)])) := by
  refine ⟨?_, ?_, ?_⟩
  · intro r h
    unfold makeRequest2xxBody at h
    cases decoded with
    | some result =>
        cases result with
        | obj fs => cases h; exact ⟨_, rfl⟩
        | null => cases h; exact ⟨_, rfl⟩
        | bool b => cases h; exact ⟨_, rfl⟩
        | num n => cases h; exact ⟨_, rfl⟩
        | str s => cases h; exact ⟨_, rfl⟩
        | arr xs => cases h; exact ⟨_, rfl⟩
    | none =>
        by_cases hs : status = 204
        · rw [if_pos hs] at h; cases h; exact ⟨_, rfl⟩
        · rw [if_neg hs] at h; cases h
  · intro fs
    rfl
  · intro v hv
    cases v with
    | obj gs => exact absurd rfl (hv gs)
    | null => rfl
    | bool b => rfl
    | num n => rfl
    | str s => rfl
    | arr xs => rfl

/-- Claim C9 witness: the theorem applied to a decoded bare list at status 200. -/
theorem make_request_returns_mapping_witness :
    (∃ gs, (PyJson.obj [("data", PyJson.arr [PyJson.num 1])]) = PyJson.obj gs) ∧
    makeRequest2xxBody 200 (some (.arr [.num 1])) = .ok (.obj [("data", .arr [.num 1])]) :=
  ⟨(make_request_returns_mapping 200 (some (.arr [.num 1]))).1 _ rfl,
   (make_request_returns_mapping 200 (some (.arr [.num 1]))).2.2 _
     (by intro gs h; cases h)⟩

/-- Claim C4 counterexample: `APIClient.validate_token` with an upstream call
failing with a non-401 `APIError` (here a 500) — the claim says such a
failure is re-raised, but the source's bare `except APIError: return False`
maps it to `false`. -/
theorem api_client_validate_token_counterexample :
    apiClientValidateToken (.error (APIErr.mk "boom" 500)) = .ok false ∧
    apiClientValidateToken (.error (APIErr.mk "boom" 500))
      ≠ .error (APIErr.mk "boom" 500) := by
  constructor
  · rfl
  · intro h
    cases h

/-- Claim C4 (amended): both `validate_token` implementations interpret the
outcome of their one side-effect-free upstream call as `true` on success;
`AnytypeClient.validate_token` returns `false` exactly on a 401 `APIError`
and re-raises every other `APIError`, while `APIClient.validate_token`
returns `false` on every `APIError`, a non-401 failure included. -/
theorem validate_token_behaviour :
    (∀ v, anytypeValidateToken (.ok v) = .ok true) ∧
    (∀ e, e.status_code = 401 → anytypeValidateToken (.error e) = .ok false) ∧
    (∀ e, e.status_code ≠ 401 → anytypeValidateToken (.error e) = .error e) ∧
    (∀ v, apiClientValidateToken (.ok v) = .ok true) ∧
    (∀ e, apiClientValidateToken (.error e) = .ok false) := by
  refine ⟨fun v => rfl, ?_, ?_, fun v => rfl, fun e => rfl⟩
  · intro e he
    simp [anytypeValidateToken, he]
  · intro e he
    simp [anytypeValidateToken, he]

/-- Claim C4 witness: the amended theorem applied at a success, a 401 failure and
a 500 failure of the upstream call. -/
theorem validate_token_behaviour_witness :
    anytypeValidateToken (.ok (.obj [])) = .ok true ∧
    anytypeValidateToken (.error (APIErr.mk "Unauthorized" 401)) = .ok false ∧
    anytypeValidateToken (.error (APIErr.mk "boom" 500))
      = .error (APIErr.mk "boom" 500) ∧
    apiClientValidateToken (.error (APIErr.mk "boom" 500)) = .ok false :=
  ⟨validate_token_behaviour.1 _,
   validate_token_behaviour.2.1 _ rfl,
   validate_token_behaviour.2.2.1 _ (by decide),
   validate_token_behaviour.2.2.2.2 _⟩

/-- Claim C7: `get_endpoint` resolves a known name whose template formats cleanly
to the substituted path; an unknown name fails with
`APIError("Unknown endpoint: <name>")`; a template placeholder with no
matching parameter fails with `APIError("Missing required parameter for
endpoint <name>: '<key>'")` naming the endpoint and the missing key — plus
the registry's own `getObject` / missing-`object_id` / unknown-name
instances computed concretely. -/
theorem get_endpoint_spec (name : String) (params : List (String × String)) :
    (lookupParam ENDPOINTS name = none →
        get_endpoint name params
          = .error (APIErr.mk ("Unknown endpoint: " ++ name) 500)) ∧
    (∀ tmpl s, lookupParam ENDPOINTS name = some tmpl → tmpl ≠ "" →
        formatTemplate tmpl params = .ok s →
        get_endpoint name params = .ok s) ∧
    (∀ tmpl k, lookupParam ENDPOINTS name = some tmpl → tmpl ≠ "" →
        formatTemplate tmpl params = .error k →
        get_endpoint name params
          = .error (APIErr.mk
              ("Missing required parameter for endpoint " ++ name ++ ": '" ++ k ++ "'")
              500)) ∧
    get_endpoint "getObject" [("space_id", "s"), ("object_id", "o")]
      = .ok "/v1/spaces/s/objects/o" ∧
    get_endpoint "getObject" [("space_id", "s")]
      = .error (APIErr.mk "Missing required parameter for endpoint getObject: 'object_id'" 500) ∧
    get_endpoint "nope" []
      = .error (APIErr.mk "Unknown endpoint: nope" 500) := by
  refine ⟨?_, ?_, ?_, rfl, rfl, rfl⟩
  · intro hn
    simp [get_endpoint, hn]
  · intro tmpl s hn hne hf
    simp [get_endpoint, hn, hne, hf]
  · intro tmpl k hn hne hf
    simp [get_endpoint, hn, hne, hf]

/-- Claim C7 witness: the general parts applied at the registry's `getObject`
entry with both parameters, with a missing `object_id`, and at an unknown
name. -/
theorem get_endpoint_spec_witness :
    get_endpoint "getObject" [("space_id", "a"), ("object_id", "b")]
      = .ok "/v1/spaces/a/objects/b" ∧
    get_endpoint "getTypes" []
      = .error (APIErr.mk "Missing required parameter for endpoint getTypes: 'space_id'" 500) ∧
    get_endpoint "bogus" []
      = .error (APIErr.mk "Unknown endpoint: bogus" 500) :=
  ⟨(get_endpoint_spec "getObject" [("space_id", "a"), ("object_id", "b")]).2.1
      _ _ rfl (by decide) rfl,
   (get_endpoint_spec "getTypes" []).2.2.1 _ _ rfl (by decide) rfl,
   (get_endpoint_spec "bogus" []).1 rfl⟩

/-- Claim C8: the REST-router `get_objects` handler is extensionally the
`search_objects` handler applied to the `SearchRequest` it builds — an
empty query with the caller's `space_id`, `types`, `limit`, `offset` and
sort carried over — for every upstream behaviour `search`, every input and
every token; the error mapping (and hence pagination handling) is
identical by construction. -/
theorem get_objects_delegates_to_search {ρ : Type}
    (search : SearchRequestR → String → Except APIErr ρ)
    (sp : String) (ty : Option String) (li off : Option Int)
    (so : Option SortOrder) (tok : String) :
    get_objects_route search sp ty li off so tok
      = search_objects_route search (mkGetObjectsSearchRequest sp ty li off so) tok ∧
    (mkGetObjectsSearchRequest sp ty li off so).query = "" ∧
    (mkGetObjectsSearchRequest sp ty li off so).space_id = sp ∧
    (mkGetObjectsSearchRequest sp ty li off so).limit = li ∧
    (mkGetObjectsSearchRequest sp ty li off so).offset = off ∧
    (mkGetObjectsSearchRequest sp ty li off so).sort
      = SortOptionsR.mk "desc"
          (match so with
           | some s => s.value
           | none => "last_modified_date") :=
  ⟨rfl, rfl, rfl, rfl, rfl, rfl⟩

/-- Claim C5: starting from a cache miss, a call on a non-empty type list whose
upstream fetch succeeds with a non-empty type list issues exactly one
`get_types` call and leaves the space's key cached with the fetched id set;
a second call for the same space then issues zero upstream calls (and does
not touch the cache), while a call for a space whose key is still uncached
performs its own upstream fetch. -/
theorem type_validator_caching
    (st : TypeValidatorState) (ts ts2 ts3 : List String) (sid sid2 : Option String)
    (client : Option String → GetTypesResult) (tl : List TypeDetails)
    (hts : ts ≠ []) (hts2 : ts2 ≠ []) (hts3 : ts3 ≠ [])
    (hmiss : lookupCache st.space_types (cacheKey sid) = none)
    (hok : client sid = .ok tl) (htl : tl ≠ []) :
    (validate_types st (some ts) sid client).2.2 = 1 ∧
    lookupCache (validate_types st (some ts) sid client).2.1.space_types (cacheKey sid)
      = some ((tl.map TypeDetails.id).dedup) ∧
    (validate_types (validate_types st (some ts) sid client).2.1 (some ts2) sid client).2.2 = 0 ∧
    (validate_types (validate_types st (some ts) sid client).2.1 (some ts2) sid client).2.1
      = (validate_types st (some ts) sid client).2.1 ∧
    (lookupCache (validate_types st (some ts) sid client).2.1.space_types (cacheKey sid2) = none →
        (validate_types (validate_types st (some ts) sid client).2.1 (some ts3) sid2 client).2.2 = 1) := by
  have h1 : validate_types st (some ts) sid client
      = (checkInvalid ts ((tl.map TypeDetails.id).dedup),
         TypeValidatorState.mk
           ((cacheKey sid, (tl.map TypeDetails.id).dedup) :: st.space_types), 1) := by
    simp [validate_types, hmiss, hok, hts, htl]
  have hhit : lookupCache
      ((cacheKey sid, (tl.map TypeDetails.id).dedup) :: st.space_types) (cacheKey sid)
      = some ((tl.map TypeDetails.id).dedup) := by
    simp [lookupCache]
  have h2 : validate_types
      (TypeValidatorState.mk
        ((cacheKey sid, (tl.map TypeDetails.id).dedup) :: st.space_types))
      (some ts2) sid client
      = (checkInvalid ts2 ((tl.map TypeDetails.id).dedup),
         TypeValidatorState.mk
           ((cacheKey sid, (tl.map TypeDetails.id).dedup) :: st.space_types), 0) := by
    simp [validate_types, hts2, hhit]
  refine ⟨by rw [h1], by rw [h1]; exact hhit, by rw [h1, h2], by rw [h1, h2], ?_⟩
  · intro hmiss2
    rw [h1] at hmiss2 ⊢
    cases hc : client sid2 with
    | ok tl2 =>
        by_cases h0 : tl2 = []
        · simp [validate_types, hts3, hmiss2, hc, h0]
        · simp [validate_types, hts3, hmiss2, hc, h0]
    | err m =>
        by_cases hm : (strContains m.toLower "type not found" ||
            strContains m "'message': 'type not found'") = true
        · simp [validate_types, hts3, hmiss2, hc, hm]
        · simp [validate_types, hts3, hmiss2, hc, hm]

/-- Upstream stub for the Type Validator witnesses: every space reports the
types `t1` and `t2`. -/
def clientW : Option String → GetTypesResult :=
  fun _ => .ok [TypeDetails.mk "t1" "Type 1", TypeDetails.mk "t2" "Type 2"]

/-- Claim C5 witness: the theorem applied to a fresh validator — first call for
`s1` fetches once, the repeat call for `s1` fetches zero times, and a call
for the uncached `s2` fetches again. -/
theorem type_validator_caching_witness :
    (validate_types (TypeValidatorState.mk []) (some ["t1"]) (some "s1") clientW).2.2 = 1 ∧
    (validate_types (validate_types (TypeValidatorState.mk []) (some ["t1"]) (some "s1") clientW).2.1
        (some ["t1"]) (some "s1") clientW).2.2 = 0 ∧
    (validate_types (validate_types (TypeValidatorState.mk []) (some ["t1"]) (some "s1") clientW).2.1
        (some ["t2"]) (some "s2") clientW).2.2 = 1 := by
  have h := type_validator_caching (TypeValidatorState.mk []) ["t1"] ["t1"] ["t2"]
    (some "s1") (some "s2") clientW
    [TypeDetails.mk "t1" "Type 1", TypeDetails.mk "t2" "Type 2"]
    (by decide) (by decide) (by decide) (by decide) rfl (by decide)
  exact ⟨h.1, h.2.2.1, h.2.2.2.2 (by decide)⟩

/-- Claim C6: against a cached valid-type set, the validator computes
`invalid = input - cached` preserving input order; a non-empty difference
raises `HTTPException(400, ...)` whose detail lists exactly the invalid
input types and the full valid set in sorted order, and an empty difference
returns the input unchanged (no upstream call, no state change either way). -/
theorem type_validator_invalid_types
    (st : TypeValidatorState) (ts : List String) (sid : Option String)
    (client : Option String → GetTypesResult) (valid : List String)
    (hts : ts ≠ [])
    (hhit : lookupCache st.space_types (cacheKey sid) = some valid) :
    (ts.filter (fun t => !valid.contains t) ≠ [] →
        validate_types st (some ts) sid client
          = (.httpError 400
              ("Invalid type(s): "
                ++ String.intercalate ", " (ts.filter (fun t => !valid.contains t))
                ++ ". Valid types are: "
                ++ String.intercalate ", " (sortStrings valid)),
             st, 0)) ∧
    (ts.filter (fun t => !valid.contains t) = [] →
        validate_types st (some ts) sid client = (.passed ts, st, 0)) := by
  have h1 : validate_types st (some ts) sid client = (checkInvalid ts valid, st, 0) := by
    simp [validate_types, hts, hhit]
  constructor
  · intro hinv
    rw [h1]
    simp only [checkInvalid]
    rw [if_neg hinv]
  · intro hinv
    rw [h1]
    simp only [checkInvalid]
    rw [if_pos hinv]

/-- Claim C6 witness: the theorem applied against the cached set `{t1, t2}` —
`["t1", "bogus"]` raises 400 listing exactly `bogus` (and the sorted valid
set), `["t1"]` passes through unchanged. -/
theorem type_validator_invalid_types_witness :
    validate_types (TypeValidatorState.mk [("global", ["t1", "t2"])])
        (some ["t1", "bogus"]) none clientW
      = (.httpError 400 "Invalid type(s): bogus. Valid types are: t1, t2",
         TypeValidatorState.mk [("global", ["t1", "t2"])], 0) ∧
    validate_types (TypeValidatorState.mk [("global", ["t1", "t2"])])
        (some ["t1"]) none clientW
      = (.passed ["t1"], TypeValidatorState.mk [("global", ["t1", "t2"])], 0) := by
  constructor
  · exact (type_validator_invalid_types _ ["t1", "bogus"] none clientW ["t1", "t2"]
      (by decide) (by decide)).1 (by decide)
  · exact (type_validator_invalid_types _ ["t1"] none clientW ["t1", "t2"]
      (by decide) (by decide)).2 (by decide)
